import Mathlib

/-!
# Verification of `merge_branch.py` (git-stats)

A shallow embedding of the merge-orchestration script `src/merge_branch.py`.

The VCS Gateway (`git_calls`, an external collaborator not part of the core)
is modelled abstractly: a run consumes a stream of `GResp` responses, one per
gateway invocation, and records every invocation in a trace.  The orchestrator
(`checkout_update_branch`, `merge_branches`, `merge_up`, `main`) is translated
line by line from the Python source; fatal failures (`assert` in the source)
are modelled as an `Outcome.fatal` early return carrying the assert message.
-/

set_option maxRecDepth 100000

namespace MergeBranch

/-- One VCS Gateway invocation, tagged with its arguments.
Constructor names follow the spec's gateway interface
(checkout, reset, pull, fetch, trackAll, merge, showHead, showLog, push,
configSet, setDebug). -/
inductive GCall where
  | setDebug (b : Bool)
  | configSet (key value : String)
  | reset (target : String)
  | fetch
  | trackAll (clean : Bool)
  | checkout (branch : String) (force : Bool)
  | pull (branch : String)
  | showHead
  | merge (branch : String)
  | showLog
  | push (branch : String)
deriving DecidableEq

/-- The result of one VCS Gateway invocation (the spec's `ExecResult`,
with the extra payloads some calls return bundled in as named fields:
conflict descriptors, output lines, the branch set from `trackAll`,
and the content identifier from `showHead`). -/
structure GResp where
  ret : Int
  out : String
  err : String
  conflicts : List String
  outLines : List String
  branches : List String
  sha : String
deriving DecidableEq

/-- A successful, empty gateway response. -/
def okResp : GResp := ⟨0, "", "", [], [], [], ""⟩

/-- The state threaded through a run: the remaining gateway response stream,
the trace of gateway invocations made so far, and the lines printed so far. -/
structure St where
  resps : List GResp
  trace : List GCall
  prints : List String
deriving DecidableEq

/-- Append one printed line. -/
def pr (line : String) (s : St) : St :=
  ⟨s.resps, s.trace, s.prints ++ [line]⟩

/-- Perform one gateway invocation: consume the next response from the stream
(`okResp` if the stream is exhausted) and record the call in the trace. -/
def callGw (c : GCall) (s : St) : GResp × St :=
  (s.resps.headD okResp, ⟨s.resps.tail, s.trace ++ [c], s.prints⟩)

/-- Modelled from the spec: `git_checkout` in the missing `git_calls` module;
`checkout(branch, force) -> ExecResult`. -/
def git_checkout (branch : String) (force : Bool) (s : St) : GResp × St :=
  callGw (.checkout branch force) s

/-- Modelled from the spec: `git_reset` in the missing `git_calls` module;
`reset(target) -> ExecResult`. -/
def git_reset (target : String) (s : St) : GResp × St :=
  callGw (.reset target) s

/-- Modelled from the spec: `git_pull` in the missing `git_calls` module;
`pull(branch) -> (conflicts, outputLines, ExecResult)`. -/
def git_pull (branch : String) (s : St) : (List String × List String × GResp) × St :=
  let p := callGw (.pull branch) s
  ((p.1.conflicts, p.1.outLines, p.1), p.2)

/-- Modelled from the spec: `git_fetch` in the missing `git_calls` module;
`fetch() -> ExecResult`. -/
def git_fetch (s : St) : GResp × St :=
  callGw .fetch s

/-- Modelled from the spec: `git_track_all` in the missing `git_calls` module;
`trackAll(clean) -> (branchSet, ExecResult)`. -/
def git_track_all (clean : Bool) (s : St) : (List String × GResp) × St :=
  let p := callGw (.trackAll clean) s
  ((p.1.branches, p.1), p.2)

/-- Modelled from the spec: `git_merge` in the missing `git_calls` module;
`merge(whence) -> (conflicts, outputLines, ExecResult)`. -/
def git_merge (branch : String) (s : St) : (List String × List String × GResp) × St :=
  let p := callGw (.merge branch) s
  ((p.1.conflicts, p.1.outLines, p.1), p.2)

/-- Modelled from the spec: `git_show_sha` in the missing `git_calls` module;
`showHead() -> (contentId, ExecResult)`. -/
def git_show_sha (s : St) : (String × GResp) × St :=
  let p := callGw .showHead s
  ((p.1.sha, p.1), p.2)

/-- Modelled from the spec: `git_show` in the missing `git_calls` module;
`showLog() -> ExecResult`. -/
def git_show (s : St) : GResp × St :=
  callGw .showLog s

/-- Modelled from the spec: `git_push` in the missing `git_calls` module;
`push(branch) -> ExecResult`. -/
def git_push (branch : String) (s : St) : GResp × St :=
  callGw (.push branch) s

/-- Modelled from the spec: `git_config_set` in the missing `git_calls`
module; `configSet(key, value) -> ExecResult`. -/
def git_config_set (key value : String) (s : St) : GResp × St :=
  callGw (.configSet key value) s

/-- Modelled from the spec: `git_debugging` in the missing `git_calls` module;
`setDebug(bool)` sets an in-process flag (no subprocess result). -/
def git_debugging (b : Bool) (s : St) : St :=
  ⟨s.resps, s.trace ++ [.setDebug b], s.prints⟩

/-- Outcome of a run: normal return, or a fatal abort carrying the
assert message (`check_error` reports and raises; the process exits). -/
inductive Outcome where
  | ok
  | fatal (msg : String)
deriving DecidableEq

/-- `report_failure(msg)`: the diagnostic block printed to stderr
before the process dies (source lines 9-14). -/
def report_failure (msg : String) : String :=
  String.join (List.replicate 80 "!") ++ "\n" ++ msg ++ "\n" ++
    String.join (List.replicate 80 "@")

/-- `check_error(condition, msg)` (source lines 17-22) in continuation style:
if `condition` is truthy, the program continues with `k`; otherwise the
failure is reported and the run aborts fatally with message `msg`. -/
def check_error (condition : Bool) (msg : String)
    (s : St) (k : St → Outcome × St) : Outcome × St :=
  match condition with
  | true => k s
  | false => (.fatal msg, s)

/-- Sequence a sub-run: if it aborted fatally, the abort propagates
(a Python `AssertionError` unwinds through the caller); otherwise
continue with `k` from its final state. -/
def seqOutcome (p : Outcome × St) (k : St → Outcome × St) : Outcome × St :=
  match p with
  | (.ok, s) => k s
  | (.fatal m, s) => (.fatal m, s)

/-- Modelled from the spec: `format_error` in the missing `git_calls` module;
failures are reported with the failing command's captured output and
error text. -/
def format_error (r : GResp) : String :=
  r.out ++ "\n" ++ r.err

/-- Modelled from the spec: `format_error` with its `failure` keyword argument
(the joined conflict descriptors), included verbatim in the message. -/
def format_error_f (r : GResp) (failure : String) : String :=
  r.out ++ "\n" ++ r.err ++ "\n" ++ failure

/-- `'\n'.join(sorted(branch_list))`: insertion step of the sort. -/
def insertStr (x : String) : List String → List String
  | [] => [x]
  | y :: ys => if x < y then x :: y :: ys else y :: insertStr x ys

/-- `sorted(branch_list)`: lexicographic insertion sort on strings. -/
def sortStr : List String → List String
  | [] => []
  | x :: xs => insertStr x (sortStr xs)

/-- A horizontal banner such as `'=' * 80`. -/
def repStr (u : String) (n : Nat) : String :=
  String.join (List.replicate n u)

/-- The module docstring printed by `merge_branches` (`__doc__`). -/
def moduleDoc : String :=
  "\n    Merge one git branch to another and optionally push to origin\n"

/-- `checkout_update_branch(branch)` (source lines 25-36): checkout `branch`
force, check status; reset to `origin/<branch>` with the result DISCARDED
(the source re-checks the stale checkout result, line 33); pull and check. -/
def checkout_update_branch (branch : String) (s : St) : Outcome × St :=
  let p := git_checkout branch true s
  let exec_result := p.1
  let s := p.2
  check_error (exec_result.ret == 0) (format_error exec_result) s (fun s =>
  let s := (git_reset ("origin/" ++ branch) s).2
  check_error (exec_result.ret == 0) (format_error exec_result) s (fun s =>
  let q := git_pull branch s
  let conflicts := q.1.1
  let exec_result := q.1.2.2
  let s := q.2
  check_error (exec_result.ret == 0)
    (format_error_f exec_result (String.intercalate "\n" conflicts)) s (fun s =>
  (.ok, s))))

/-- `merge_branches(whence, whither, do_push, clean_branches, debugging)`
(source lines 39-124), translated line by line.  Two source slips are kept
as-is: the `git_reset('HEAD')` result is discarded and the stale config-set
result is re-checked (lines 61-62), and the `git_track_all` status is never
checked (line 69).  The push step is `assert False` before `git_push`
(lines 118-121). -/
def merge_branches (whence whither : String)
    (do_push clean_branches debugging : Bool) (s : St) : Outcome × St :=
  let s := pr (repStr "=" 80) s
  let s := pr moduleDoc s
  let s := pr (repStr "=" 80) s
  let s := pr ("merge_branches: \"" ++ whence ++ "\" -> \"" ++ whither ++ "\"") s
  let s := git_debugging debugging s
  let p := git_config_set "merge.renameLimit" "999999" s
  let exec_result := p.1
  let s := p.2
  check_error (exec_result.ret == 0) (format_error exec_result) s (fun s =>
  let s := (git_reset "HEAD" s).2
  check_error (exec_result.ret == 0) (format_error exec_result) s (fun s =>
  let p := git_fetch s
  let exec_result := p.1
  let s := p.2
  check_error (exec_result.ret == 0) (format_error exec_result) s (fun s =>
  let q := git_track_all clean_branches s
  let branch_list := q.1.1
  let s := q.2
  check_error ((whence != "") && (whither != ""))
    ("to and from branches required: from=\"" ++ whence ++ "\",to=\"" ++
      whither ++ "\"") s (fun s =>
  check_error (branch_list.contains whither)
    ("To branch \"" ++ whither ++ "\" not in branches\n" ++
      String.intercalate "\n" (sortStr branch_list)) s (fun s =>
  check_error (branch_list.contains whence)
    ("From branch \"" ++ whence ++ "\" not in branches\n" ++
      String.intercalate "\n" (sortStr branch_list)) s (fun s =>
  seqOutcome (checkout_update_branch whence s) (fun s =>
  seqOutcome (checkout_update_branch whither s) (fun s =>
  let q := git_show_sha s
  let sha_before := q.1.1
  let exec_result := q.1.2
  let s := q.2
  check_error (exec_result.ret == 0) (format_error exec_result) s (fun s =>
  let q := git_merge whence s
  let conflicts := q.1.1
  let exec_result := q.1.2.2
  let s := q.2
  check_error (exec_result.ret == 0)
    (format_error_f exec_result (String.intercalate "\n" conflicts)) s (fun s =>
  let q := git_show_sha s
  let sha_after := q.1.1
  let exec_result := q.1.2
  let s := q.2
  check_error (exec_result.ret == 0) (format_error exec_result) s (fun s =>
  let s := pr (repStr "," 80) s
  let s := pr ("sha_before=" ++ sha_before) s
  let s := pr ("sha_after =" ++ sha_after) s
  let s := pr (repStr "-" 80) s
  let s :=
    cond (sha_before == sha_after)
      (pr "No change" s)
      (let p := git_show s
       pr p.1.out p.2)
  let s := pr (repStr "=" 80) s
  cond do_push
    (.fatal "assert False", s)
    (.ok, s))))))))))))

/-- The MergePlan: `list(zip(branch_list[:-1], branch_list[1:]))`
(source line 137). -/
def merge_plan (branch_list : List String) : List (String × String) :=
  List.zip branch_list.dropLast (branch_list.drop 1)

/-- Python's `'%4d' % n`: right-align a number in width 4. -/
def pad4 (n : Nat) : String :=
  let t := toString n
  repStr " " (4 - t.length) ++ t

/-- The `Merging:` listing of `merge_up` (source line 135). -/
def enumFmt (branch_list : List String) : String :=
  String.intercalate " ->\n"
    (branch_list.enum.map (fun p => pad4 p.1 ++ ": \"" ++ p.2 ++ "\""))

/-- The `Planned merges:` listing of `merge_up` (source lines 138-139). -/
def planFmt (pairs : List (String × String)) : String :=
  String.intercalate "\n"
    (pairs.enum.map (fun p =>
      pad4 p.1 ++ ": \"" ++ p.2.1 ++ "\" -> \"" ++ p.2.2 ++ "\""))

/-- The two banner lines `merge_up` prints before executing the plan. -/
def merge_up_banner (branch_list : List String) (s : St) : St :=
  let s := pr ("Merging:\n" ++ enumFmt branch_list) s
  pr ("Planned merges:\n" ++ planFmt (merge_plan branch_list)) s

/-- The `for` loop of `merge_up` (source lines 141-142): run
`merge_branches` on each planned pair in order; a fatal abort in one pair
unwinds out of the loop, so later pairs are never started. -/
def merge_up_go (pairs : List (String × String))
    (do_push clean_branches debugging : Bool) (s : St) : Outcome × St :=
  match pairs with
  | [] => (.ok, s)
  | (b1, b2) :: rest =>
    seqOutcome (merge_branches b1 b2 do_push clean_branches debugging s)
      (fun s => merge_up_go rest do_push clean_branches debugging s)

/-- `merge_up(branch_list, do_push, clean_branches, debugging)`
(source lines 127-142). -/
def merge_up (branch_list : List String)
    (do_push clean_branches debugging : Bool) (s : St) : Outcome × St :=
  merge_up_go (merge_plan branch_list) do_push clean_branches debugging
    (merge_up_banner branch_list s)

/-- The parsed command-line options of `main` (source lines 150-165);
`optparse` defaults: flags `false`, string options `""`. -/
structure Options where
  debugging : Bool
  do_push : Bool
  clean_branches : Bool
  whither : String
  whence : String
  branch_list_str : String

/-- `main()` (source lines 145-173), its orchestration part: if `--up` was
given, `assert not (whence or whither)` then run `merge_up` on the
whitespace-split list; otherwise run `merge_branches` on the pair. -/
def main (options : Options) (s : St) : Outcome × St :=
  cond (options.branch_list_str != "")
    (cond ((options.whence != "") || (options.whither != ""))
      (.fatal "--up cannot be used with --to and --from", s)
      (merge_up ((options.branch_list_str.split Char.isWhitespace).filter
          (fun t => t != ""))
        options.do_push options.clean_branches options.debugging s))
    (merge_branches options.whence options.whither options.do_push
      options.clean_branches options.debugging s)

/-- The adjacent-pair sequence exactly as the spec words it:
for `[b1,...,bn]` the pairs `[(b1,b2),(b2,b3),...,(b(n-1),bn)]`
(spec §3 MergePlan, §8).  Stated for refinement against `merge_plan`. -/
def adjacentPairs : List String → List (String × String)
  | [] => []
  | [_] => []
  | a :: b :: r => (a, b) :: adjacentPairs (b :: r)

/-- Is a gateway call the merge call? (used to count Merge invocations). -/
def isMergeCall : GCall → Bool
  | .merge _ => true
  | _ => false

/-! ## Helper lemmas -/

lemma merge_plan_nil : merge_plan [] = [] := rfl

lemma merge_plan_single (a : String) : merge_plan [a] = [] := rfl

lemma merge_plan_cons (a b : String) (l : List String) :
    merge_plan (a :: b :: l) = (a, b) :: merge_plan (b :: l) := by
  simp [merge_plan, List.dropLast]

lemma merge_plan_eq_adjacentPairs (l : List String) :
    merge_plan l = adjacentPairs l := by
  induction l with
  | nil => rfl
  | cons a t ih =>
    cases t with
    | nil => rfl
    | cons b r =>
      rw [merge_plan_cons, adjacentPairs]
      exact congrArg _ ih

lemma merge_plan_length (l : List String) :
    (merge_plan l).length = l.length - 1 := by
  simp [merge_plan]

lemma merge_plan_short (l : List String) (h : l.length < 2) :
    merge_plan l = [] := by
  match l, h with
  | [], _ => rfl
  | [a], _ => rfl

/-- Master path analysis of `merge_branches`: a run that returns normally has
`do_push = false` and adds exactly one merge gateway call (for `whence`) to
the trace, and no run ever adds a push gateway call. -/
lemma mb_master (w x : String) (p c d : Bool) (s : St) :
    ((merge_branches w x p c d s).1 = .ok →
      p = false ∧
      ((merge_branches w x p c d s).2).trace.filter isMergeCall =
        s.trace.filter isMergeCall ++ [GCall.merge w]) ∧
    (∀ b, GCall.push b ∈ (merge_branches w x p c d s).2.trace →
      GCall.push b ∈ s.trace) := by
  cases h1 : (s.resps.headD okResp).ret == 0
  case false =>
    simp only [merge_branches, checkout_update_branch, check_error, seqOutcome, git_config_set,
      git_fetch, git_reset, git_checkout, git_pull, git_track_all, git_show_sha, git_merge,
      git_show, git_debugging, callGw, pr, h1, cond]
    simp [isMergeCall]
  case true =>
  cases h3 : (s.resps.tail.tail.headD okResp).ret == 0
  case false =>
    simp only [merge_branches, checkout_update_branch, check_error, seqOutcome, git_config_set,
      git_fetch, git_reset, git_checkout, git_pull, git_track_all, git_show_sha, git_merge,
      git_show, git_debugging, callGw, pr, h1, h3, cond]
    simp [isMergeCall]
  case true =>
  cases hE : (w != "") && (x != "")
  case false =>
    simp only [merge_branches, checkout_update_branch, check_error, seqOutcome, git_config_set,
      git_fetch, git_reset, git_checkout, git_pull, git_track_all, git_show_sha, git_merge,
      git_show, git_debugging, callGw, pr, h1, h3, hE, cond]
    simp [isMergeCall]
  case true =>
  cases hX : (s.resps.tail.tail.tail.headD okResp).branches.contains x
  case false =>
    simp only [merge_branches, checkout_update_branch, check_error, seqOutcome, git_config_set,
      git_fetch, git_reset, git_checkout, git_pull, git_track_all, git_show_sha, git_merge,
      git_show, git_debugging, callGw, pr, h1, h3, hE, hX, cond]
    simp [isMergeCall]
  case true =>
  cases hW : (s.resps.tail.tail.tail.headD okResp).branches.contains w
  case false =>
    simp only [merge_branches, checkout_update_branch, check_error, seqOutcome, git_config_set,
      git_fetch, git_reset, git_checkout, git_pull, git_track_all, git_show_sha, git_merge,
      git_show, git_debugging, callGw, pr, h1, h3, hE, hX, hW, cond]
    simp [isMergeCall]
  case true =>
  cases h5 : (s.resps.tail.tail.tail.tail.headD okResp).ret == 0
  case false =>
    simp only [merge_branches, checkout_update_branch, check_error, seqOutcome, git_config_set,
      git_fetch, git_reset, git_checkout, git_pull, git_track_all, git_show_sha, git_merge,
      git_show, git_debugging, callGw, pr, h1, h3, hE, hX, hW, h5, cond]
    simp [isMergeCall]
  case true =>
  cases h7 : (s.resps.tail.tail.tail.tail.tail.tail.headD okResp).ret == 0
  case false =>
    simp only [merge_branches, checkout_update_branch, check_error, seqOutcome, git_config_set,
      git_fetch, git_reset, git_checkout, git_pull, git_track_all, git_show_sha, git_merge,
      git_show, git_debugging, callGw, pr, h1, h3, hE, hX, hW, h5, h7, cond]
    simp [isMergeCall]
  case true =>
  cases h8 : (s.resps.tail.tail.tail.tail.tail.tail.tail.headD okResp).ret == 0
  case false =>
    simp only [merge_branches, checkout_update_branch, check_error, seqOutcome, git_config_set,
      git_fetch, git_reset, git_checkout, git_pull, git_track_all, git_show_sha, git_merge,
      git_show, git_debugging, callGw, pr, h1, h3, hE, hX, hW, h5, h7, h8, cond]
    simp [isMergeCall]
  case true =>
  cases h10 : (s.resps.tail.tail.tail.tail.tail.tail.tail.tail.tail.headD okResp).ret == 0
  case false =>
    simp only [merge_branches, checkout_update_branch, check_error, seqOutcome, git_config_set,
      git_fetch, git_reset, git_checkout, git_pull, git_track_all, git_show_sha, git_merge,
      git_show, git_debugging, callGw, pr, h1, h3, hE, hX, hW, h5, h7, h8, h10, cond]
    simp [isMergeCall]
  case true =>
  cases h11 : (s.resps.tail.tail.tail.tail.tail.tail.tail.tail.tail.tail.headD okResp).ret == 0
  case false =>
    simp only [merge_branches, checkout_update_branch, check_error, seqOutcome, git_config_set,
      git_fetch, git_reset, git_checkout, git_pull, git_track_all, git_show_sha, git_merge,
      git_show, git_debugging, callGw, pr, h1, h3, hE, hX, hW, h5, h7, h8, h10, h11, cond]
    simp [isMergeCall]
  case true =>
  cases h12 : (s.resps.tail.tail.tail.tail.tail.tail.tail.tail.tail.tail.tail.headD okResp).ret == 0
  case false =>
    simp only [merge_branches, checkout_update_branch, check_error, seqOutcome, git_config_set,
      git_fetch, git_reset, git_checkout, git_pull, git_track_all, git_show_sha, git_merge,
      git_show, git_debugging, callGw, pr, h1, h3, hE, hX, hW, h5, h7, h8, h10, h11, h12, cond]
    simp [isMergeCall]
  case true =>
  cases h13 : (s.resps.tail.tail.tail.tail.tail.tail.tail.tail.tail.tail.tail.tail.headD
      okResp).ret == 0
  case false =>
    simp only [merge_branches, checkout_update_branch, check_error, seqOutcome, git_config_set,
      git_fetch, git_reset, git_checkout, git_pull, git_track_all, git_show_sha, git_merge,
      git_show, git_debugging, callGw, pr, h1, h3, hE, hX, hW, h5, h7, h8, h10, h11, h12, h13,
      cond]
    simp [isMergeCall]
  case true =>
  cases hS : (s.resps.tail.tail.tail.tail.tail.tail.tail.tail.tail.tail.headD okResp).sha ==
      (s.resps.tail.tail.tail.tail.tail.tail.tail.tail.tail.tail.tail.tail.headD okResp).sha <;>
  cases p <;>
  · simp only [merge_branches, checkout_update_branch, check_error, seqOutcome, git_config_set,
      git_fetch, git_reset, git_checkout, git_pull, git_track_all, git_show_sha, git_merge,
      git_show, git_debugging, callGw, pr, h1, h3, hE, hX, hW, h5, h7, h8, h10, h11, h12, h13,
      hS, cond]
    simp [isMergeCall, List.filter_append]

/-- A fatal first pair stops `merge_up_go` with exactly that failure state. -/
lemma merge_up_go_fatal (b1 b2 : String) (rest : List (String × String))
    (p c d : Bool) (s : St) (m : String) (s2 : St)
    (h : merge_branches b1 b2 p c d s = (.fatal m, s2)) :
    merge_up_go ((b1, b2) :: rest) p c d s = (.fatal m, s2) := by
  simp only [merge_up_go, h, seqOutcome]

/-- A normally-returning `merge_up_go` run performs exactly one merge gateway
call per planned pair, in plan order. -/
lemma merge_up_go_ok_filter (pairs : List (String × String))
    (p c d : Bool) (s : St)
    (h : (merge_up_go pairs p c d s).1 = .ok) :
    ((merge_up_go pairs p c d s).2).trace.filter isMergeCall =
      s.trace.filter isMergeCall ++ pairs.map (fun q => GCall.merge q.1) := by
  induction pairs generalizing s with
  | nil => simp [merge_up_go]
  | cons hd tl ih =>
    obtain ⟨b1, b2⟩ := hd
    rcases hmb : merge_branches b1 b2 p c d s with ⟨o, s'⟩
    cases o with
    | fatal m =>
      rw [merge_up_go_fatal b1 b2 tl p c d s m s' hmb] at h
      exact absurd h (by simp)
    | ok =>
      have hgo : merge_up_go ((b1, b2) :: tl) p c d s = merge_up_go tl p c d s' := by
        simp only [merge_up_go, hmb, seqOutcome]
      rw [hgo] at h ⊢
      have hone := ((mb_master b1 b2 p c d s).1 (by rw [hmb]))
      rw [ih s' h]
      rw [hmb] at hone
      rw [hone.2]
      simp

/-- Both branches of the dead-push guard carry the same state. -/
lemma cond_pair_snd (b : Bool) (o1 o2 : Outcome) (s1 : St) :
    (cond b (o1, s1) (o2, s1)).2 = s1 := by
  cases b <;> rfl

/-- When every status check up to and including the pre-merge SHA capture
succeeds and both branches are non-empty members of the tracked set, the
merge gateway call is reached (whatever happens afterwards). -/
lemma mb_merge_call_reached (w x : String) (p c d : Bool) (s : St)
    (h1 : ((s.resps.headD okResp).ret == 0) = true)
    (h3 : ((s.resps.tail.tail.headD okResp).ret == 0) = true)
    (hE : ((w != "") && (x != "")) = true)
    (hX : ((s.resps.tail.tail.tail.headD okResp).branches.contains x) = true)
    (hW : ((s.resps.tail.tail.tail.headD okResp).branches.contains w) = true)
    (h5 : ((s.resps.tail.tail.tail.tail.headD okResp).ret == 0) = true)
    (h7 : ((s.resps.tail.tail.tail.tail.tail.tail.headD okResp).ret == 0) = true)
    (h8 : ((s.resps.tail.tail.tail.tail.tail.tail.tail.headD okResp).ret == 0) = true)
    (h10 : ((s.resps.tail.tail.tail.tail.tail.tail.tail.tail.tail.headD okResp).ret == 0) = true)
    (h11 : ((s.resps.tail.tail.tail.tail.tail.tail.tail.tail.tail.tail.headD
      okResp).ret == 0) = true) :
    GCall.merge w ∈ (merge_branches w x p c d s).2.trace := by
  cases h12 : (s.resps.tail.tail.tail.tail.tail.tail.tail.tail.tail.tail.tail.headD
      okResp).ret == 0
  case false =>
    simp only [merge_branches, checkout_update_branch, check_error, seqOutcome,
      git_config_set, git_fetch, git_reset, git_checkout, git_pull, git_track_all,
      git_show_sha, git_merge, git_show, git_debugging, callGw, pr,
      h1, h3, hE, hX, hW, h5, h7, h8, h10, h11, h12]
    simp
  case true =>
  cases h13 : (s.resps.tail.tail.tail.tail.tail.tail.tail.tail.tail.tail.tail.tail.headD
      okResp).ret == 0
  case false =>
    simp only [merge_branches, checkout_update_branch, check_error, seqOutcome,
      git_config_set, git_fetch, git_reset, git_checkout, git_pull, git_track_all,
      git_show_sha, git_merge, git_show, git_debugging, callGw, pr,
      h1, h3, hE, hX, hW, h5, h7, h8, h10, h11, h12, h13]
    simp
  case true =>
  cases hS : (s.resps.tail.tail.tail.tail.tail.tail.tail.tail.tail.tail.headD okResp).sha ==
      (s.resps.tail.tail.tail.tail.tail.tail.tail.tail.tail.tail.tail.tail.headD okResp).sha <;>
  · simp only [merge_branches, checkout_update_branch, check_error, seqOutcome,
      git_config_set, git_fetch, git_reset, git_checkout, git_pull, git_track_all,
      git_show_sha, git_merge, git_show, git_debugging, callGw, pr,
      h1, h3, hE, hX, hW, h5, h7, h8, h10, h11, h12, h13, hS, cond_pair_snd]
    simp

/-! ## Claim theorems -/

/-- C1: the claim fails on the code (code bug).  The source discards the
`git_reset` results (re-checking a stale `exec_result`, lines 32-33 and
61-62) and never status-checks `git_track_all` (line 69).  Concretely:
(a) in `checkout_update_branch`, a reset-to-origin response with status 1
does not abort — the run returns normally and the pull step still executes;
(b) in `merge_branches`, a reset-to-HEAD response with status 1 does not
abort — the fetch step still executes;
(c) a trackAll response with status 1 does not abort — the whole run
completes normally. -/
theorem reset_and_trackAll_status_unchecked :
    ((checkout_update_branch "b"
        ⟨[okResp, ⟨1, "", "", [], [], [], ""⟩, okResp], [], []⟩).1 = .ok ∧
      GCall.pull "b" ∈ (checkout_update_branch "b"
        ⟨[okResp, ⟨1, "", "", [], [], [], ""⟩, okResp], [], []⟩).2.trace) ∧
    (GCall.fetch ∈ (merge_branches "a" "b" false false false
        ⟨[okResp, ⟨1, "", "", [], [], [], ""⟩, okResp,
          ⟨0, "", "", [], [], ["a", "b"], ""⟩], [], []⟩).2.trace) ∧
    ((merge_branches "a" "b" false false false
        ⟨[okResp, okResp, okResp, ⟨1, "", "", [], [], ["a", "b"], ""⟩], [], []⟩).1 = .ok) := by
  decide

/-- C3 (counterexample): a run with `do_push = true` that reaches the
post-merge reporting step (it prints "No change") does not invoke the push
gateway call; it aborts at the disabled push guard (`assert False`),
refuting the claim that `git_push(whither)` is invoked and checked. -/
theorem push_requested_never_invoked :
    "No change" ∈ (merge_branches "a" "b" true false false
      ⟨[okResp, okResp, okResp, ⟨0, "", "", [], [], ["a", "b"], ""⟩], [], []⟩).2.prints ∧
    (∀ b, GCall.push b ∉ (merge_branches "a" "b" true false false
      ⟨[okResp, okResp, okResp, ⟨0, "", "", [], [], ["a", "b"], ""⟩], [], []⟩).2.trace) ∧
    (merge_branches "a" "b" true false false
      ⟨[okResp, okResp, okResp, ⟨0, "", "", [], [], ["a", "b"], ""⟩], [], []⟩).1 =
      .fatal "assert False" := by
  refine ⟨by decide, ?_, by decide⟩
  intro b
  exact fun hb => by
    have := (mb_master "a" "b" true false false
      ⟨[okResp, okResp, okResp, ⟨0, "", "", [], [], ["a", "b"], ""⟩], [], []⟩).2 b hb
    simp at this

/-- C3 (amended): the push path of `merge_branches` is inert.  No run, with
any response stream and any flags, ever makes a push gateway call, and no
run with `do_push = true` returns normally (it aborts at the `assert False`
guard if it gets that far, or earlier). -/
theorem push_path_inert (resps : List GResp) (w x : String) (p c d : Bool) :
    (merge_branches w x true c d ⟨resps, [], []⟩).1 ≠ .ok ∧
    ∀ b, GCall.push b ∉ (merge_branches w x p c d ⟨resps, [], []⟩).2.trace := by
  constructor
  · intro hok
    have hmaster := (mb_master w x true c d ⟨resps, [], []⟩).1 hok
    cases hmaster.1
  · intro b hb
    have := (mb_master w x p c d ⟨resps, [], []⟩).2 b hb
    simp at this

/-- C3 (witness): the amended theorem applied at a concrete run. -/
theorem push_path_inert_witness :
    GCall.push "b" ∉ (merge_branches "a" "b" true false false
      ⟨[], [], []⟩).2.trace :=
  (push_path_inert [] "a" "b" true false false).2 "b"

/-- C5: if the Merge Operation of the first planned pair aborts fatally,
`merge_up` ends with exactly that failure state: no gateway call, print, or
stream consumption of any later pair happens (the second pair is never
attempted). -/
theorem merge_up_fail_fast (b1 b2 : String) (rest : List String) (p c d : Bool)
    (s : St) (m : String) (s2 : St)
    (h : merge_branches b1 b2 p c d (merge_up_banner (b1 :: b2 :: rest) s) = (.fatal m, s2)) :
    merge_up (b1 :: b2 :: rest) p c d s = (.fatal m, s2) := by
  unfold merge_up
  rw [merge_plan_cons]
  exact merge_up_go_fatal b1 b2 _ p c d _ m s2 h

/-- C5 (witness): chain `["a","b","c"]` where the first pair's run fails at
its first status check; `merge_up` stops with that failure. -/
theorem merge_up_fail_fast_witness :
    merge_up ["a", "b", "c"] false false false ⟨[⟨1, "", "", [], [], [], ""⟩], [], []⟩ =
      (.fatal (format_error ⟨1, "", "", [], [], [], ""⟩),
        (merge_branches "a" "b" false false false
          (merge_up_banner ["a", "b", "c"]
            ⟨[⟨1, "", "", [], [], [], ""⟩], [], []⟩)).2) :=
  merge_up_fail_fast "a" "b" ["c"] false false false _ _ _ (by decide)

/-- C7: the MergePlan is exactly the adjacent-pair sequence of the branch
list (refinement against the spec-worded `adjacentPairs`), its length is
`n - 1`, a normally-returning `merge_up` run makes exactly one merge gateway
call per planned pair in plan order, and a list of fewer than 2 branches
performs no gateway call at all (only the banner prints). -/
theorem merge_plan_adjacent_and_once_per_pair :
    (∀ bl : List String, merge_plan bl = adjacentPairs bl) ∧
    (∀ bl : List String, (merge_plan bl).length = bl.length - 1) ∧
    (∀ (bl : List String) (p c d : Bool) (s : St),
      (merge_up bl p c d s).1 = .ok →
      ((merge_up bl p c d s).2).trace.filter isMergeCall =
        s.trace.filter isMergeCall ++ (merge_plan bl).map (fun q => GCall.merge q.1)) ∧
    (∀ (bl : List String) (p c d : Bool) (s : St), bl.length < 2 →
      merge_up bl p c d s = (.ok, merge_up_banner bl s)) := by
  refine ⟨merge_plan_eq_adjacentPairs, merge_plan_length, ?_, ?_⟩
  · intro bl p c d s h
    unfold merge_up at h ⊢
    have hgo := merge_up_go_ok_filter (merge_plan bl) p c d (merge_up_banner bl s) h
    rw [hgo]
    rfl
  · intro bl p c d s h
    unfold merge_up
    rw [merge_plan_short bl h]
    rfl

/-- C7 (witness): a concrete normally-returning two-branch run makes exactly
the one planned merge call. -/
theorem merge_plan_adjacent_and_once_per_pair_witness :
    ((merge_up ["a", "b"] false false false
      ⟨[okResp, okResp, okResp, ⟨0, "", "", [], [], ["a", "b"], ""⟩], [], []⟩).2).trace.filter
        isMergeCall = [GCall.merge "a"] :=
  (merge_plan_adjacent_and_once_per_pair.2.2.1 ["a", "b"] false false false
    ⟨[okResp, okResp, okResp, ⟨0, "", "", [], [], ["a", "b"], ""⟩], [], []⟩
    (by decide)).trans (by decide)

/-- C2 (counterexample): with both branches empty, the run does fail with the
message naming both branches, but the configSet, reset-to-HEAD, fetch and
trackAll gateway invocations have already occurred before the failure,
refuting "before any VCS Gateway call occurs". -/
theorem empty_branches_gateway_calls_precede :
    (merge_branches "" "" false false false ⟨[], [], []⟩).1 =
      .fatal "to and from branches required: from=\"\",to=\"\"" ∧
    GCall.configSet "merge.renameLimit" "999999" ∈
      (merge_branches "" "" false false false ⟨[], [], []⟩).2.trace ∧
    GCall.reset "HEAD" ∈
      (merge_branches "" "" false false false ⟨[], [], []⟩).2.trace ∧
    GCall.fetch ∈
      (merge_branches "" "" false false false ⟨[], [], []⟩).2.trace ∧
    GCall.trackAll false ∈
      (merge_branches "" "" false false false ⟨[], [], []⟩).2.trace := by
  decide

/-- C2 (amended): with `whence` or `whither` empty, `merge_branches` never
returns normally and never reaches a checkout, pull or merge gateway call
(the branch synchronization and the merge are never started); when the
status-checked configSet and fetch steps succeed, the failure is the
PreconditionFailure naming both branches.  The configSet, reset-to-HEAD,
fetch and trackAll gateway calls do occur before the failure. -/
theorem empty_branches_fail_before_sync :
    (∀ (resps : List GResp) (p c d : Bool) (w x : String), w = "" ∨ x = "" →
      (merge_branches w x p c d ⟨resps, [], []⟩).1 ≠ .ok ∧
      (∀ b f, GCall.checkout b f ∉ (merge_branches w x p c d ⟨resps, [], []⟩).2.trace) ∧
      (∀ b, GCall.pull b ∉ (merge_branches w x p c d ⟨resps, [], []⟩).2.trace) ∧
      (∀ b, GCall.merge b ∉ (merge_branches w x p c d ⟨resps, [], []⟩).2.trace)) ∧
    (∀ (r1 r2 r3 r4 : GResp) (rest : List GResp) (p c d : Bool) (w x : String),
      w = "" ∨ x = "" → r1.ret = 0 → r3.ret = 0 →
      (merge_branches w x p c d ⟨r1 :: r2 :: r3 :: r4 :: rest, [], []⟩).1 =
        .fatal ("to and from branches required: from=\"" ++ w ++ "\",to=\"" ++ x ++ "\"")) := by
  constructor
  · intro resps p c d w x h
    have hEb : ((w != "") && (x != "")) = false := by
      rcases h with h | h <;> subst h <;> simp
    cases h1 : ((resps : List GResp).headD okResp).ret == 0
    case false =>
      simp only [merge_branches, check_error, seqOutcome, git_config_set, git_debugging,
        callGw, pr, h1, cond]
      simp
    case true =>
    cases h3 : ((resps : List GResp).tail.tail.headD okResp).ret == 0 <;>
    · simp only [merge_branches, check_error, seqOutcome, git_config_set, git_fetch, git_reset,
        git_track_all, git_debugging, callGw, pr, h1, h3, hEb, cond]
      simp
  · intro r1 r2 r3 r4 rest p c d w x h h1 h3
    have hEb : ((w != "") && (x != "")) = false := by
      rcases h with h | h <;> subst h <;> simp
    have h1b : (r1.ret == 0) = true := by simp [h1]
    have h3b : (r3.ret == 0) = true := by simp [h3]
    simp only [merge_branches, check_error, seqOutcome, git_config_set, git_fetch, git_reset,
      git_track_all, git_debugging, callGw, pr, List.headD_cons, List.tail_cons,
      h1b, h3b, hEb, cond]

/-- C2 (witness): the amended theorem applied at concrete runs with an empty
`whence`. -/
theorem empty_branches_fail_before_sync_witness :
    ((merge_branches "" "b" false false false ⟨[], [], []⟩).1 ≠ .ok ∧
      GCall.merge "b" ∉ (merge_branches "" "b" false false false ⟨[], [], []⟩).2.trace) ∧
    (merge_branches "" "b" false false false ⟨[okResp, okResp, okResp, okResp], [], []⟩).1 =
      .fatal "to and from branches required: from=\"\",to=\"b\"" :=
  ⟨⟨(empty_branches_fail_before_sync.1 [] false false false "" "b" (Or.inl rfl)).1,
    (empty_branches_fail_before_sync.1 [] false false false "" "b" (Or.inl rfl)).2.2.2 "b"⟩,
   empty_branches_fail_before_sync.2 okResp okResp okResp okResp [] false false false "" "b"
     (Or.inl rfl) rfl rfl⟩

/-- C4: when `whence` or `whither` (both non-empty, with the status-checked
configSet and fetch steps succeeding) is absent from the branch set produced
by the trackAll step, the run fails with the PreconditionFailure reporting
the full sorted branch set, and the merge gateway call is never invoked.
The missing-`whither` check fires first; the missing-`whence` check fires
when `whither` is present. -/
theorem absent_branch_fails_before_merge (r1 r2 r3 r4 : GResp) (rest : List GResp)
    (w x : String) (p c d : Bool)
    (h1 : r1.ret = 0) (h3 : r3.ret = 0) (hw : w ≠ "") (hx : x ≠ "")
    (habs : w ∉ r4.branches ∨ x ∉ r4.branches) :
    (∀ b, GCall.merge b ∉
      (merge_branches w x p c d ⟨r1 :: r2 :: r3 :: r4 :: rest, [], []⟩).2.trace) ∧
    (x ∉ r4.branches →
      (merge_branches w x p c d ⟨r1 :: r2 :: r3 :: r4 :: rest, [], []⟩).1 =
        .fatal ("To branch \"" ++ x ++ "\" not in branches\n" ++
          String.intercalate "\n" (sortStr r4.branches))) ∧
    (x ∈ r4.branches → w ∉ r4.branches →
      (merge_branches w x p c d ⟨r1 :: r2 :: r3 :: r4 :: rest, [], []⟩).1 =
        .fatal ("From branch \"" ++ w ++ "\" not in branches\n" ++
          String.intercalate "\n" (sortStr r4.branches))) := by
  have h1b : (r1.ret == 0) = true := by simp [h1]
  have h3b : (r3.ret == 0) = true := by simp [h3]
  have hEb : ((w != "") && (x != "")) = true := by simp [hw, hx]
  by_cases hXm : x ∈ r4.branches
  · have hXb : (r4.branches.contains x) = true := by simpa using hXm
    have hWm : w ∉ r4.branches := by
      rcases habs with h | h
      · exact h
      · exact absurd hXm h
    have hWb : (r4.branches.contains w) = false := by simpa using hWm
    refine ⟨?_, fun h' => absurd hXm h', fun _ _ => ?_⟩ <;>
    · simp only [merge_branches, check_error, seqOutcome, git_config_set, git_fetch, git_reset,
        git_track_all, git_debugging, callGw, pr, List.headD_cons, List.tail_cons,
        h1b, h3b, hEb, hXb, hWb, cond]
      try simp
  · have hXb : (r4.branches.contains x) = false := by simpa using hXm
    refine ⟨?_, fun _ => ?_, fun h' => absurd h' hXm⟩ <;>
    · simp only [merge_branches, check_error, seqOutcome, git_config_set, git_fetch, git_reset,
        git_track_all, git_debugging, callGw, pr, List.headD_cons, List.tail_cons,
        h1b, h3b, hEb, hXb, cond]
      try simp

/-- C4 (witness): merging from a branch `"zz"` absent from the tracked set
`["a"]` fails with the From-branch message and never merges. -/
theorem absent_branch_fails_before_merge_witness :
    GCall.merge "zz" ∉ (merge_branches "zz" "a" false false false
      ⟨[okResp, okResp, okResp, ⟨0, "", "", [], [], ["a"], ""⟩], [], []⟩).2.trace ∧
    (merge_branches "zz" "a" false false false
      ⟨[okResp, okResp, okResp, ⟨0, "", "", [], [], ["a"], ""⟩], [], []⟩).1 =
      .fatal "From branch \"zz\" not in branches\na" :=
  ⟨(absent_branch_fails_before_merge okResp okResp okResp ⟨0, "", "", [], [], ["a"], ""⟩ []
      "zz" "a" false false false rfl rfl (by decide) (by decide) (Or.inl (by decide))).1 "zz",
   (absent_branch_fails_before_merge okResp okResp okResp ⟨0, "", "", [], [], ["a"], ""⟩ []
      "zz" "a" false false false rfl rfl (by decide) (by decide) (Or.inl (by decide))).2.2
     (by decide) (by decide)⟩

/-- C6 (counterexample): a run in which the reset step of the `whence`
synchronization reports status 1 (checkout and pull succeed) does NOT stop:
the `whither` synchronization and the merge step still run and the whole
operation returns normally, refuting the claim for the "reset" case. -/
theorem whence_reset_failure_continues :
    (merge_branches "a" "b" false false false
      ⟨[okResp, okResp, okResp, ⟨0, "", "", [], [], ["a", "b"], ""⟩, okResp,
        ⟨1, "", "", [], [], [], ""⟩, okResp], [], []⟩).1 = .ok ∧
    GCall.checkout "b" true ∈ (merge_branches "a" "b" false false false
      ⟨[okResp, okResp, okResp, ⟨0, "", "", [], [], ["a", "b"], ""⟩, okResp,
        ⟨1, "", "", [], [], [], ""⟩, okResp], [], []⟩).2.trace ∧
    GCall.merge "a" ∈ (merge_branches "a" "b" false false false
      ⟨[okResp, okResp, okResp, ⟨0, "", "", [], [], ["a", "b"], ""⟩, okResp,
        ⟨1, "", "", [], [], [], ""⟩, okResp], [], []⟩).2.trace := by
  decide

/-- C6 (amended): when a status-checked step of the `whence` synchronization
fails — the checkout, or the pull with the checkout succeeding (the reset
status is ignored by the code) — the run aborts there: the trace is exactly
the prefix up to and including the failing `whence`-sync step, so the
`whither` synchronization, the merge, the SHA captures, the reporting and
the push are never invoked. -/
theorem whence_sync_failure_stops_run (r1 r2 r3 r4 r5 r6 r7 : GResp) (rest : List GResp)
    (w x : String) (p c d : Bool)
    (h1 : r1.ret = 0) (h3 : r3.ret = 0) (hw : w ≠ "") (hx : x ≠ "")
    (hwm : w ∈ r4.branches) (hxm : x ∈ r4.branches)
    (hfail : r5.ret ≠ 0 ∨ (r5.ret = 0 ∧ r7.ret ≠ 0)) :
    (merge_branches w x p c d
      ⟨r1 :: r2 :: r3 :: r4 :: r5 :: r6 :: r7 :: rest, [], []⟩).1 ≠ .ok ∧
    ((merge_branches w x p c d
        ⟨r1 :: r2 :: r3 :: r4 :: r5 :: r6 :: r7 :: rest, [], []⟩).2.trace =
      [.setDebug d, .configSet "merge.renameLimit" "999999", .reset "HEAD", .fetch,
        .trackAll c, .checkout w true] ∨
     (merge_branches w x p c d
        ⟨r1 :: r2 :: r3 :: r4 :: r5 :: r6 :: r7 :: rest, [], []⟩).2.trace =
      [.setDebug d, .configSet "merge.renameLimit" "999999", .reset "HEAD", .fetch,
        .trackAll c, .checkout w true, .reset ("origin/" ++ w), .pull w]) := by
  have h1b : (r1.ret == 0) = true := by simp [h1]
  have h3b : (r3.ret == 0) = true := by simp [h3]
  have hEb : ((w != "") && (x != "")) = true := by simp [hw, hx]
  have hXb : (r4.branches.contains x) = true := by simpa using hxm
  have hWb : (r4.branches.contains w) = true := by simpa using hwm
  rcases hfail with h5 | ⟨h5, h7⟩
  · have h5b : (r5.ret == 0) = false := by simpa using h5
    constructor
    · simp only [merge_branches, checkout_update_branch, check_error, seqOutcome,
        git_config_set, git_fetch, git_reset, git_checkout, git_pull, git_track_all,
        git_debugging, callGw, pr, List.headD_cons, List.tail_cons,
        h1b, h3b, hEb, hXb, hWb, h5b, cond]
      simp
    · left
      simp only [merge_branches, checkout_update_branch, check_error, seqOutcome,
        git_config_set, git_fetch, git_reset, git_checkout, git_pull, git_track_all,
        git_debugging, callGw, pr, List.headD_cons, List.tail_cons,
        h1b, h3b, hEb, hXb, hWb, h5b, cond]
      simp
  · have h5b : (r5.ret == 0) = true := by simp [h5]
    have h7b : (r7.ret == 0) = false := by simpa using h7
    constructor
    · simp only [merge_branches, checkout_update_branch, check_error, seqOutcome,
        git_config_set, git_fetch, git_reset, git_checkout, git_pull, git_track_all,
        git_debugging, callGw, pr, List.headD_cons, List.tail_cons,
        h1b, h3b, hEb, hXb, hWb, h5b, h7b, cond]
      simp
    · right
      simp only [merge_branches, checkout_update_branch, check_error, seqOutcome,
        git_config_set, git_fetch, git_reset, git_checkout, git_pull, git_track_all,
        git_debugging, callGw, pr, List.headD_cons, List.tail_cons,
        h1b, h3b, hEb, hXb, hWb, h5b, h7b, cond]
      simp

/-- C6 (witness): concrete run whose `whence` checkout reports status 1; the
run stops with exactly the six-call prefix. -/
theorem whence_sync_failure_stops_run_witness :
    (merge_branches "a" "b" false false false
      ⟨[okResp, okResp, okResp, ⟨0, "", "", [], [], ["a", "b"], ""⟩,
        ⟨1, "", "", [], [], [], ""⟩, okResp, okResp], [], []⟩).1 ≠ .ok ∧
    ((merge_branches "a" "b" false false false
        ⟨[okResp, okResp, okResp, ⟨0, "", "", [], [], ["a", "b"], ""⟩,
          ⟨1, "", "", [], [], [], ""⟩, okResp, okResp], [], []⟩).2.trace =
      [.setDebug false, .configSet "merge.renameLimit" "999999", .reset "HEAD", .fetch,
        .trackAll false, .checkout "a" true] ∨
     (merge_branches "a" "b" false false false
        ⟨[okResp, okResp, okResp, ⟨0, "", "", [], [], ["a", "b"], ""⟩,
          ⟨1, "", "", [], [], [], ""⟩, okResp, okResp], [], []⟩).2.trace =
      [.setDebug false, .configSet "merge.renameLimit" "999999", .reset "HEAD", .fetch,
        .trackAll false, .checkout "a" true, .reset "origin/a", .pull "a"]) :=
  whence_sync_failure_stops_run okResp okResp okResp ⟨0, "", "", [], [], ["a", "b"], ""⟩
    ⟨1, "", "", [], [], [], ""⟩ okResp okResp [] "a" "b" false false false
    rfl rfl (by decide) (by decide) (by decide) (by decide) (Or.inl (by decide))

/-- C9: supplying a non-empty `--up` branch list together with a non-empty
`--from` or `--to` makes `main` fail as a usage error with the state
untouched: no gateway call, no print, and neither `merge_up` nor
`merge_branches` has any effect. -/
theorem up_flag_mutually_exclusive (options : Options) (s : St)
    (hup : options.branch_list_str ≠ "")
    (hpair : options.whence ≠ "" ∨ options.whither ≠ "") :
    main options s = (.fatal "--up cannot be used with --to and --from", s) := by
  have hb : (options.branch_list_str != "") = true := by simpa using hup
  have hc : ((options.whence != "") || (options.whither != "")) = true := by
    rcases hpair with h | h <;> simp [h]
  simp only [main, hb, hc, cond]

/-- C9 (witness): concrete options with both `--up` and `--to` set. -/
theorem up_flag_mutually_exclusive_witness :
    main ⟨false, false, false, "b", "", "a b c"⟩ ⟨[], [], []⟩ =
      (.fatal "--up cannot be used with --to and --from", ⟨[], [], []⟩) :=
  up_flag_mutually_exclusive ⟨false, false, false, "b", "", "a b c"⟩ ⟨[], [], []⟩
    (by decide) (Or.inr (by decide))

/-- C8: in a run that reaches the post-merge reporting step, if the SHA
captured before the merge equals the one captured after, the run prints
"No change" and never makes the log-entry (showLog) gateway call; if they
differ, the log-entry gateway call is made exactly once. -/
theorem no_change_vs_showlog (r1 r2 r3 r4 r5 r6 r7 r8 r9 r10 r11 r12 r13 : GResp)
    (rest : List GResp) (w x : String) (p c d : Bool)
    (h1 : r1.ret = 0) (h3 : r3.ret = 0) (hw : w ≠ "") (hx : x ≠ "")
    (hwm : w ∈ r4.branches) (hxm : x ∈ r4.branches)
    (h5 : r5.ret = 0) (h7 : r7.ret = 0) (h8 : r8.ret = 0) (h10 : r10.ret = 0)
    (h11 : r11.ret = 0) (h12 : r12.ret = 0) (h13 : r13.ret = 0) :
    (r11.sha = r13.sha →
      "No change" ∈ (merge_branches w x p c d
        ⟨r1 :: r2 :: r3 :: r4 :: r5 :: r6 :: r7 :: r8 :: r9 :: r10 :: r11 :: r12 :: r13 ::
          rest, [], []⟩).2.prints ∧
      GCall.showLog ∉ (merge_branches w x p c d
        ⟨r1 :: r2 :: r3 :: r4 :: r5 :: r6 :: r7 :: r8 :: r9 :: r10 :: r11 :: r12 :: r13 ::
          rest, [], []⟩).2.trace) ∧
    (r11.sha ≠ r13.sha →
      ((merge_branches w x p c d
        ⟨r1 :: r2 :: r3 :: r4 :: r5 :: r6 :: r7 :: r8 :: r9 :: r10 :: r11 :: r12 :: r13 ::
          rest, [], []⟩).2.trace.count GCall.showLog) = 1) := by
  have h1b : (r1.ret == 0) = true := by simp [h1]
  have h3b : (r3.ret == 0) = true := by simp [h3]
  have hEb : ((w != "") && (x != "")) = true := by simp [hw, hx]
  have hXb : (r4.branches.contains x) = true := by simpa using hxm
  have hWb : (r4.branches.contains w) = true := by simpa using hwm
  have h5b : (r5.ret == 0) = true := by simp [h5]
  have h7b : (r7.ret == 0) = true := by simp [h7]
  have h8b : (r8.ret == 0) = true := by simp [h8]
  have h10b : (r10.ret == 0) = true := by simp [h10]
  have h11b : (r11.ret == 0) = true := by simp [h11]
  have h12b : (r12.ret == 0) = true := by simp [h12]
  have h13b : (r13.ret == 0) = true := by simp [h13]
  constructor
  · intro hsha
    have hSb : (r11.sha == r13.sha) = true := by simp [hsha]
    simp only [merge_branches, checkout_update_branch, check_error, seqOutcome,
      git_config_set, git_fetch, git_reset, git_checkout, git_pull, git_track_all,
      git_show_sha, git_merge, git_show, git_debugging, callGw, pr,
      List.headD_cons, List.tail_cons, h1b, h3b, hEb, hXb, hWb, h5b, h7b, h8b, h10b,
      h11b, h12b, h13b, hSb, cond_pair_snd]
    simp
  · intro hsha
    have hSb : (r11.sha == r13.sha) = false := by simpa using hsha
    simp only [merge_branches, checkout_update_branch, check_error, seqOutcome,
      git_config_set, git_fetch, git_reset, git_checkout, git_pull, git_track_all,
      git_show_sha, git_merge, git_show, git_debugging, callGw, pr,
      List.headD_cons, List.tail_cons, h1b, h3b, hEb, hXb, hWb, h5b, h7b, h8b, h10b,
      h11b, h12b, h13b, hSb, cond_pair_snd]
    simp [List.count_cons]

/-- C8 (witness): a concrete no-op merge prints "No change" and makes no
showLog call; a concrete real merge (differing SHAs) makes exactly one. -/
theorem no_change_vs_showlog_witness :
    ("No change" ∈ (merge_branches "a" "b" false false false
        ⟨[okResp, okResp, okResp, ⟨0, "", "", [], [], ["a", "b"], ""⟩], [], []⟩).2.prints ∧
      GCall.showLog ∉ (merge_branches "a" "b" false false false
        ⟨[okResp, okResp, okResp, ⟨0, "", "", [], [], ["a", "b"], ""⟩], [], []⟩).2.trace) ∧
    ((merge_branches "a" "b" false false false
        ⟨[okResp, okResp, okResp, ⟨0, "", "", [], [], ["a", "b"], ""⟩, okResp, okResp,
          okResp, okResp, okResp, okResp, ⟨0, "", "", [], [], [], "S1"⟩, okResp,
          ⟨0, "", "", [], [], [], "S2"⟩], [], []⟩).2.trace.count GCall.showLog) = 1 :=
  ⟨(no_change_vs_showlog okResp okResp okResp ⟨0, "", "", [], [], ["a", "b"], ""⟩
      okResp okResp okResp okResp okResp okResp okResp okResp okResp []
      "a" "b" false false false rfl rfl (by decide) (by decide) (by decide) (by decide)
      rfl rfl rfl rfl rfl rfl rfl).1 rfl,
   (no_change_vs_showlog okResp okResp okResp ⟨0, "", "", [], [], ["a", "b"], ""⟩
      okResp okResp okResp okResp okResp okResp ⟨0, "", "", [], [], [], "S1"⟩ okResp
      ⟨0, "", "", [], [], [], "S2"⟩ []
      "a" "b" false false false rfl rfl (by decide) (by decide) (by decide) (by decide)
      rfl rfl rfl rfl rfl rfl rfl).2 (by decide)⟩

/-- C10: no precondition rejects `whence = whither`.  A non-empty branch `b`
of the tracked set passes every check of `merge_branches b b ...` and the
run proceeds to synchronize and merge the branch into itself (the merge
gateway call for `b` is reached); `merge_up` on `[b, b]` plans exactly the
self-pair `(b, b)` and executes it (its run also reaches the merge gateway
call for `b`). -/
theorem self_merge_accepted (r1 r2 r3 r4 r5 r6 r7 r8 r9 r10 r11 : GResp)
    (rest : List GResp) (b : String) (p c d : Bool)
    (hb : b ≠ "") (hmem : b ∈ r4.branches)
    (h1 : r1.ret = 0) (h3 : r3.ret = 0) (h5 : r5.ret = 0) (h7 : r7.ret = 0)
    (h8 : r8.ret = 0) (h10 : r10.ret = 0) (h11 : r11.ret = 0) :
    GCall.merge b ∈ (merge_branches b b p c d
      ⟨r1 :: r2 :: r3 :: r4 :: r5 :: r6 :: r7 :: r8 :: r9 :: r10 :: r11 :: rest,
        [], []⟩).2.trace ∧
    merge_plan [b, b] = [(b, b)] ∧
    GCall.merge b ∈ (merge_up [b, b] p c d
      ⟨r1 :: r2 :: r3 :: r4 :: r5 :: r6 :: r7 :: r8 :: r9 :: r10 :: r11 :: rest,
        [], []⟩).2.trace := by
  have hmemb : (r4.branches.contains b) = true := by simpa using hmem
  have hEb : ((b != "") && (b != "")) = true := by simp [hb]
  refine ⟨?_, rfl, ?_⟩
  · exact mb_merge_call_reached b b p c d _ (by simp [h1]) (by simp [h3]) hEb hmemb hmemb
      (by simp [h5]) (by simp [h7]) (by simp [h8]) (by simp [h10]) (by simp [h11])
  · unfold merge_up
    rw [show merge_plan [b, b] = [(b, b)] from rfl]
    rcases hmb : merge_branches b b p c d (merge_up_banner [b, b]
      ⟨r1 :: r2 :: r3 :: r4 :: r5 :: r6 :: r7 :: r8 :: r9 :: r10 :: r11 :: rest,
        [], []⟩) with ⟨o, s2⟩
    have hm : GCall.merge b ∈ s2.trace := by
      have hreach := mb_merge_call_reached b b p c d (merge_up_banner [b, b]
        ⟨r1 :: r2 :: r3 :: r4 :: r5 :: r6 :: r7 :: r8 :: r9 :: r10 :: r11 :: rest,
          [], []⟩) (by simp [merge_up_banner, pr, h1]) (by simp [merge_up_banner, pr, h3])
        hEb (by simp [merge_up_banner, pr, hmemb, hmem]) (by simp [merge_up_banner, pr, hmemb, hmem])
        (by simp [merge_up_banner, pr, h5]) (by simp [merge_up_banner, pr, h7])
        (by simp [merge_up_banner, pr, h8]) (by simp [merge_up_banner, pr, h10])
        (by simp [merge_up_banner, pr, h11])
      rw [hmb] at hreach
      exact hreach
    cases o with
    | ok =>
      simp only [merge_up_go, hmb, seqOutcome]
      exact hm
    | fatal m =>
      simp only [merge_up_go, hmb, seqOutcome]
      exact hm

/-- C10 (witness): the self-merge `merge_branches "a" "a"` with `"a"` in the
tracked set reaches the merge call, and `merge_up ["a","a"]` does too. -/
theorem self_merge_accepted_witness :
    GCall.merge "a" ∈ (merge_branches "a" "a" false false false
      ⟨[okResp, okResp, okResp, ⟨0, "", "", [], [], ["a"], ""⟩, okResp, okResp, okResp,
        okResp, okResp, okResp, okResp], [], []⟩).2.trace ∧
    merge_plan ["a", "a"] = [("a", "a")] ∧
    GCall.merge "a" ∈ (merge_up ["a", "a"] false false false
      ⟨[okResp, okResp, okResp, ⟨0, "", "", [], [], ["a"], ""⟩, okResp, okResp, okResp,
        okResp, okResp, okResp, okResp], [], []⟩).2.trace :=
  self_merge_accepted okResp okResp okResp ⟨0, "", "", [], [], ["a"], ""⟩
    okResp okResp okResp okResp okResp okResp okResp [] "a" false false false
    (by decide) (by decide) rfl rfl rfl rfl rfl rfl rfl

end MergeBranch
